import Mathlib

/-!
# Verification of the Autonomous QA Agent pipeline

Shallow embedding of the repository (`Backend.py`, `Frontend.py`): the
FastAPI endpoint bodies and the Streamlit presentation-layer helpers are
translated into pure Lean functions.  External collaborators (BeautifulSoup,
the LangChain loaders and splitter, the Chroma vector store, the Gemini LLM)
are modelled as abstract data or function parameters, so that the glue code
of the repository itself is what the theorems talk about.

Python string primitives (`strip`, `split`, `startswith`, `endswith`,
`replace`, `in`, `lower`) are re-implemented on `List Char` by structural
recursion so that every definition evaluates inside the kernel; each one
mirrors the documented CPython semantics for the arguments the repository
actually uses.
-/

/- ### Python string primitives -/

/-- Is `pat` a prefix of `l`?  (List-of-characters helper.) -/
def isPre : List Char → List Char → Bool
  | [], _ => true
  | _ :: _, [] => false
  | a :: as, b :: bs => a == b && isPre as bs

/-- Python `pat in s` on strings: substring containment. -/
def strContains (s pat : String) : Bool :=
  go pat.toList s.toList
where
  go (p : List Char) : List Char → Bool
    | [] => isPre p []
    | c :: rest => isPre p (c :: rest) || go p rest

/-- Remove the characters satisfying `p` from both ends of the list. -/
def stripChars (p : Char → Bool) (s : List Char) : List Char :=
  ((s.dropWhile p).reverse.dropWhile p).reverse

/-- The ASCII whitespace characters stripped by Python `str.strip()`. -/
def pyIsSpace (c : Char) : Bool :=
  c == ' ' || c == '\t' || c == '\n' || c == '\x0d' ||
  c == '\x0b' || c == '\x0c'

/-- Python `s.strip()` (no argument): strip whitespace from both ends. -/
def pyStrip (s : List Char) : List Char :=
  stripChars pyIsSpace s

/-- Python `s.split(sep)` for a one-character separator `sep`:
`"".split(sep) = [""]`, empty fields are kept. -/
def pySplit (sep : Char) : List Char → List (List Char)
  | [] => [[]]
  | c :: rest =>
    let r := pySplit sep rest
    if c == sep then [] :: r
    else
      match r with
      | [] => [[c]]
      | g :: gs => (c :: g) :: gs

/-- Python `s.startswith(pat)`. -/
def pyStartsWith (pat s : List Char) : Bool :=
  isPre pat s

/-- Python `s.endswith(pat)`. -/
def pyEndsWith (pat s : List Char) : Bool :=
  isPre pat.reverse s.reverse

/-- Python `s.lower()` (ASCII range, which is all the repository compares). -/
def pyLower (s : List Char) : List Char :=
  s.map Char.toLower

/-- Fuel-driven worker for `pyReplace`; the fuel starts at `s.length + 1`
and each step consumes at least one character of `s`, so the fuel never runs
out for a non-empty pattern. -/
def pyReplaceAux (pat repl : List Char) : Nat → List Char → List Char
  | 0, s => s
  | _ + 1, [] => []
  | fuel + 1, c :: rest =>
    if isPre pat (c :: rest) then
      repl ++ pyReplaceAux pat repl fuel (List.drop (pat.length - 1) rest)
    else
      c :: pyReplaceAux pat repl fuel rest

/-- Python `s.replace(pat, repl)`: replace every non-overlapping occurrence,
scanning left to right.  The repository only ever calls it with the non-empty
patterns of the code-fence cleanup, so the empty-pattern edge case is guarded
off. -/
def pyReplace (pat repl s : List Char) : List Char :=
  if pat.isEmpty then s else pyReplaceAux pat repl (s.length + 1) s

/- ### Presentation-layer data model (Frontend.py, Phase 3 parsing block) -/

/-- One parsed row of the markdown test-plan table
(`row_data` dictionary, Frontend.py lines 160-166). -/
structure TestCaseRow where
  Test_ID : String
  Feature : String
  Scenario : String
  Expected_Result : String
  Grounded_Source : String
deriving DecidableEq, Repr

/-- Python `line.strip("|")`: remove every leading and trailing pipe
character (whitespace is untouched). -/
def stripPipes (s : List Char) : List Char :=
  stripChars (fun c => c == '|') s

/-- Frontend.py lines 144-146: `raw_plan.strip().split("\n")`, keeping the
lines for which `line.strip().startswith("|")`. -/
def table_lines (raw : String) : List (List Char) :=
  (pySplit '\n' (pyStrip raw.toList)).filter
    (fun line => pyStartsWith ['|'] (pyStrip line))

/-- Frontend.py line 151: `[c.strip() for c in line.strip("|").split("|")]`. -/
def line_cells (line : List Char) : List String :=
  (pySplit '|' (stripPipes line)).map (fun c => String.mk (pyStrip c))

/-- Frontend.py lines 153-167, body of the per-line loop: skip the line when
its first cell contains `---` or contains `Test_ID`; otherwise accept it when
it has at least 4 cells, missing trailing cells defaulting to the empty
string. -/
def row_from_cells (cells : List String) : Option TestCaseRow :=
  match cells with
  | [] => none
  | c0 :: _ =>
    if strContains c0 "---" || strContains c0 "Test_ID" then none
    else if 4 ≤ cells.length then
      some ⟨c0, cells.getD 1 "", cells.getD 2 "", cells.getD 3 "",
        cells.getD 4 ""⟩
    else none

/-- The whole Phase 3 markdown-table-to-rows parsing block
(Frontend.py lines 142-167), accumulating `rows` exactly as the loop does. -/
def parse_test_plan (raw : String) : List TestCaseRow :=
  (table_lines raw).foldl
    (fun rows line =>
      match row_from_cells (line_cells line) with
      | some r => rows ++ [r]
      | none => rows)
    []

/-- The table parser as the specification sentence behind claim C1 words it:
keep exactly the lines that start with a pipe character, strip outer pipes and
split on pipe into (trimmed) cells, discard separator rows — rows one of whose
cells contains `---` — and the header row — the row whose first cell equals
`Test_ID` —, accept rows of at least 4 cells, missing trailing cells
defaulting to the empty string. -/
def parse_test_plan_claimed (raw : String) : List TestCaseRow :=
  ((pySplit '\n' raw.toList).filter (fun line => pyStartsWith ['|'] line)).filterMap
    (fun line =>
      let cells := (pySplit '|' (stripPipes line)).map (fun c => String.mk (pyStrip c))
      if cells.any (fun c => strContains c "---") then none
      else if cells.headD "" == "Test_ID" then none
      else if 4 ≤ cells.length then
        some ⟨cells.headD "", cells.getD 1 "", cells.getD 2 "", cells.getD 3 "",
          cells.getD 4 ""⟩
      else none)

/-- The amended description of the parser: keep exactly the lines whose
whitespace-stripped form starts with a pipe character; cells come from
stripping outer pipe characters off the raw line, splitting on pipe and
whitespace-trimming each cell; a row is dropped when its FIRST cell contains
`---` or contains `Test_ID` as a substring; otherwise it is accepted when it
has at least 4 cells, missing trailing cells defaulting to the empty
string. -/
def parse_test_plan_amended (raw : String) : List TestCaseRow :=
  (table_lines raw).filterMap
    (fun line =>
      let cells := line_cells line
      let c0 := cells.headD ""
      if strContains c0 "---" || strContains c0 "Test_ID" then none
      else if 4 ≤ cells.length then
        some ⟨c0, cells.getD 1 "", cells.getD 2 "", cells.getD 3 "",
          cells.getD 4 ""⟩
      else none)

/- ### Presentation-layer script cleanup (Frontend.py lines 219-222, 256-258) -/

/-- A markdown code-fence marker. -/
def fence : String := "```"

/-- The opening marker of a python code fence. -/
def fence_python : String := "```python"

/-- Frontend.py lines 220-221 (and identically 257-258): when the returned
script starts with a python code fence, remove every occurrence of
`fence_python` and then every occurrence of `fence` from the whole text;
otherwise leave the text unchanged. -/
def clean_script (script_code : String) : String :=
  if pyStartsWith fence_python.toList script_code.toList then
    String.mk (pyReplace fence.toList []
      (pyReplace fence_python.toList [] script_code.toList))
  else script_code

/-- The cleanup as the specification sentence behind claim C8 words it:
strip a leading code-fence marker and a trailing code-fence marker when
present, leaving the rest of the text (interior markers included)
unchanged. -/
def clean_script_claimed (script_code : String) : String :=
  let afterLead :=
    if pyStartsWith fence_python.toList script_code.toList then
      script_code.toList.drop fence_python.length
    else if pyStartsWith fence.toList script_code.toList then
      script_code.toList.drop fence.length
    else script_code.toList
  if pyEndsWith fence.toList afterLead then
    String.mk ((afterLead.reverse.drop fence.length).reverse)
  else String.mk afterLead

/- ### Backend data model (Backend.py) -/

/-- A LangChain document: page content plus metadata.  The repository only
ever reads the `source`, `type` and `page` metadata keys. -/
structure Metadata where
  source : String
  type : Option String := none
  page : Option Nat := none
deriving DecidableEq, Repr

/-- A LangChain `Document` (Backend.py imports `langchain_core.documents`). -/
structure Document where
  page_content : String
  metadata : Metadata
deriving DecidableEq, Repr

/-- Backend.py lines 71-72: join the retrieved page contents with blank
lines. -/
def format_docs (docs : List Document) : String :=
  String.intercalate "\n\n" (docs.map (fun d => d.page_content))

/-- An uploaded HTML file, abstracting BeautifulSoup: `file_text` is the raw
uploaded text (what `open(...).read()` returns), `text_content` is
`soup.get_text(separator="\n")`, and `raw_markup` is `str(soup)`. -/
structure Html where
  file_text : String
  text_content : String
  raw_markup : String
deriving DecidableEq, Repr

/-- Backend.py lines 74-82: the HTML splitter stores both the clean text and
the raw markup, tagged with the fixed source name. -/
def process_html_file (html : Html) : List Document :=
  [⟨html.text_content, ⟨"checkout.html", some "text", none⟩⟩,
   ⟨html.raw_markup, ⟨"checkout.html", some "code", none⟩⟩]

/-- What an uploaded support file holds, as the external loaders see it:
text that decodes as UTF-8, a parseable PDF with its page texts, or bytes
that the applicable loader fails on (unreadable or unparseable). -/
inductive FileData where
  | text (content : String)
  | pdf (pages : List String)
  | bad (err : String)
deriving DecidableEq, Repr

/-- External `langchain_community` `TextLoader(file_path, encoding="utf-8")
.load()`: reads the whole file as UTF-8 text and returns one document whose
`source` metadata is the path the loader was given.  Non-text data makes the
load raise, modelled as `Except.error`. -/
def TextLoader_load (file_path : String) (data : FileData) :
    Except String (List Document) :=
  match data with
  | .text content => .ok [⟨content, ⟨file_path, none, none⟩⟩]
  | .pdf _ => .error "file bytes do not decode as UTF-8 text"
  | .bad e => .error e

/-- External `langchain_community` `PyPDFLoader(file_path).load()`: one
document per page, in page order, with the path as `source` metadata and the
page number in the metadata.  Non-PDF data makes the load raise. -/
def PyPDFLoader_load (file_path : String) (data : FileData) :
    Except String (List Document) :=
  match data with
  | .pdf pages => .ok (pages.enum.map (fun p => ⟨p.2, ⟨file_path, none, some p.1⟩⟩))
  | .text _ => .error "file is not a PDF"
  | .bad e => .error e

/-- Backend.py line 31. -/
def UPLOAD_DIR : String := "./uploaded_docs"

/-- `os.path.join` for the relative POSIX paths the repository uses. -/
def joinPath (dir name : String) : String := dir ++ "/" ++ name

/-- Backend.py lines 84-92: choose the loader by file extension —
`PyPDFLoader` when the lowercased name ends in `.pdf`, `TextLoader`
otherwise. -/
def load_document (file_path : String) (filename : String) (data : FileData) :
    Except String (List Document) :=
  if pyEndsWith ".pdf".toList (pyLower filename.toList) then
    PyPDFLoader_load file_path data
  else
    TextLoader_load file_path data

/-- The external collaborators of the backend process: the optional LLM
(`llm` is `None` when `GOOGLE_API_KEY` is absent; otherwise invoking it on a
prompt either returns the model text or raises), the text splitter
(`RecursiveCharacterTextSplitter(chunk_size=1000, chunk_overlap=100)
.split_documents`), and the vector-store similarity search as a function of
the stored documents, the query and `k`. -/
structure Backend where
  llm : Option (String → Except String String)
  split_documents : List Document → List Document
  search : List Document → String → Nat → List Document

/-- The process-wide mutable state the endpoints touch: the Chroma
collection contents and the file at `UPLOAD_DIR/checkout.html` when one has
been written. -/
structure ServerState where
  vector_store : List Document
  checkout_html : Option Html

/-- One uploaded support file: its name and its data. -/
structure UploadFile where
  filename : String
  data : FileData
deriving DecidableEq, Repr

/-- Response of `/build-knowledge-base` (Backend.py line 128). -/
structure IngestResponse where
  status : String
  message : String
  chunks_created : Nat
deriving DecidableEq, Repr

/-- Response of `/generate-test-cases` (Backend.py line 161). -/
structure PlanResponse where
  status : String
  test_plan : String
deriving DecidableEq, Repr

/-- Response of `/generate-selenium-script` (Backend.py line 207). -/
structure ScriptResponse where
  status : String
  script : String
deriving DecidableEq, Repr

/-- A raised `HTTPException`: status code and detail. -/
structure ErrorResponse where
  status_code : Nat
  detail : String
deriving DecidableEq, Repr

/-- The observable external effects a generation endpoint performs, in
order: a vector-store query, or a network call to the LLM. -/
inductive Effect where
  | search (query : String) (k : Nat)
  | llm_invoke (prompt : String)
deriving DecidableEq, Repr

/-- Backend.py lines 104-113, the support-file loop: each file is loaded
inside `try`, and on an exception the file is skipped (`print` and
continue). -/
def load_support_docs (files : List UploadFile) : List Document :=
  files.foldl
    (fun documents file =>
      match load_document (joinPath UPLOAD_DIR file.filename) file.filename
          file.data with
      | .ok ds => documents ++ ds
      | .error _ => documents)
    []

/-- Backend.py lines 96-128, `/build-knowledge-base`: load the support
files (skipping failures), write and split the HTML file, chunk everything,
append to the vector store only when the chunk list is non-empty, and answer
with a success message and the chunk count. -/
def build_knowledge_base (B : Backend) (st : ServerState)
    (files : List UploadFile) (html_file : Html) :
    ServerState × IngestResponse :=
  let documents := load_support_docs files ++ process_html_file html_file
  let chunked_docs := B.split_documents documents
  let vector_store :=
    if chunked_docs.isEmpty then st.vector_store
    else st.vector_store ++ chunked_docs
  (⟨vector_store, some html_file⟩,
   ⟨"success", "Processed " ++ toString (files.length + 1) ++ " files.",
    chunked_docs.length⟩)

/-- Backend.py lines 139-150, the plan-generation prompt template with
`context` and `question` substituted (what the `PromptTemplate` produces). -/
def plan_prompt (context question : String) : String :=
  "\n    You are an expert QA Automation Engineer.\n    Based strictly on the provided context, generate detailed test cases.\n    \n    Context: " ++
  context ++
  "\n    User Request: " ++
  question ++
  "\n    \n    Requirements:\n    1. Do NOT hallucinate. Use only the provided context.\n    2. Output a Markdown table with columns: Test_ID, Feature, Scenario, Expected_Result, Grounded_Source.\n    "

/-- Backend.py lines 184-203, the script-generation f-string prompt. -/
def script_prompt (test_case context_rules html_content : String) : String :=
  "\n    Role: Senior Selenium Automation Engineer.\n    Task: Write a robust, runnable Python Selenium script for this test case.\n    \n    Test Case Scenario: \n    " ++
  test_case ++
  "\n    \n    Relevant Rules (Grounding):\n    " ++
  context_rules ++
  "\n    \n    Target HTML Source (Use EXACT IDs/Selectors):\n    " ++
  html_content ++
  "\n    \n    Requirements:\n    1. Use `webdriver.Chrome`.\n    2. Use `WebDriverWait` for explicit waits.\n    3. Assert the 'Expected Result' mentioned in the test case.\n    4. Handle the 'checkout.html' file path assuming it is in the current directory.\n    5. Output ONLY valid Python code.\n    "

/-- Backend.py lines 130-163, `/generate-test-cases`: fail with HTTP 500
when no LLM is configured, otherwise retrieve the top 5 chunks, build the
prompt and invoke the LLM once, turning an LLM exception into HTTP 500.  The
first component records the external effects actually performed, in
order. -/
def generate_test_cases (B : Backend) (st : ServerState) (prompt : String) :
    List Effect × Except ErrorResponse PlanResponse :=
  match B.llm with
  | none => ([], .error ⟨500, "GOOGLE_API_KEY not configured."⟩)
  | some invoke =>
    let docs := B.search st.vector_store prompt 5
    let context := format_docs docs
    let p := plan_prompt context prompt
    match invoke p with
    | .ok text => ([.search prompt 5, .llm_invoke p], .ok ⟨"success", text⟩)
    | .error e => ([.search prompt 5, .llm_invoke p], .error ⟨500, e⟩)

/-- Backend.py lines 205-209, the final `try` of the script endpoint: one
LLM call whose answer becomes the success payload and whose exception
becomes HTTP 500, with `E` the effects performed up to and including that
call. -/
def script_llm_step (invoke : String → Except String String) (E : List Effect)
    (p : String) : List Effect × Except ErrorResponse ScriptResponse :=
  match invoke p with
  | .ok r => (E, .ok ⟨"success", r⟩)
  | .error e => (E, .error ⟨500, e⟩)

/-- Backend.py lines 165-209, `/generate-selenium-script`: fail with HTTP
500 when no LLM is configured; then fail with HTTP 404 when no
`checkout.html` artifact exists; otherwise read the artifact, retrieve the
top 3 chunks, build the prompt and invoke the LLM once, turning an LLM
exception into HTTP 500.  The first component records the external effects
actually performed, in order. -/
def generate_selenium_script (B : Backend) (st : ServerState)
    (test_case : String) :
    List Effect × Except ErrorResponse ScriptResponse :=
  match B.llm with
  | none => ([], .error ⟨500, "GOOGLE_API_KEY not configured."⟩)
  | some invoke =>
    match st.checkout_html with
    | none =>
      ([], .error ⟨404,
        "checkout.html not found. Please run /build-knowledge-base first."⟩)
    | some html =>
      let relevant_docs := B.search st.vector_store test_case 3
      let context_rules :=
        String.intercalate "\n" (relevant_docs.map (fun d => d.page_content))
      let p := script_prompt test_case context_rules html.file_text
      script_llm_step invoke [.search test_case 3, .llm_invoke p] p

/- ### Concrete fixtures used by the witness theorems -/

/-- A stub LLM that always answers. -/
def llm_stub : String → Except String String := fun _ => .ok "pass"

/-- A configured backend: LLM present, identity splitter, empty retrieval. -/
def backend_ok : Backend := ⟨some llm_stub, fun docs => docs, fun _ _ _ => []⟩

/-- A backend with `GOOGLE_API_KEY` absent, so `llm` is `None`. -/
def backend_nollm : Backend := ⟨none, fun docs => docs, fun _ _ _ => []⟩

/-- A configured backend whose splitter returns no chunks. -/
def backend_zero : Backend := ⟨some llm_stub, fun _ => [], fun _ _ _ => []⟩

/-- Fresh server state: empty store, no ingested HTML artifact. -/
def state_empty : ServerState := ⟨[], none⟩

/-- A sample uploaded HTML file. -/
def html_sample : Html := ⟨"<html><body>hi</body></html>", "hi", "<html><body>hi</body></html>"⟩

/-- Server state after some ingest: the HTML artifact exists. -/
def state_with_html : ServerState := ⟨[], some html_sample⟩

/-- A support file the text loader succeeds on. -/
def good_file : UploadFile := ⟨"notes.txt", .text "hello"⟩

/-- A support file whose loader raises. -/
def bad_file : UploadFile := ⟨"broken.bin", .bad "boom"⟩

/- ### Helper lemmas -/

/-- The row accumulation of the Phase 3 loop is a `filterMap`. -/
theorem parse_fold_eq (lines : List (List Char)) (acc : List TestCaseRow) :
    lines.foldl
      (fun rows line =>
        match row_from_cells (line_cells line) with
        | some r => rows ++ [r]
        | none => rows)
      acc
      = acc ++ lines.filterMap (fun line => row_from_cells (line_cells line)) := by
  induction lines generalizing acc with
  | nil => simp
  | cons line rest ih =>
    simp only [List.foldl_cons, List.filterMap_cons]
    cases h : row_from_cells (line_cells line) with
    | none => simp only [h]; exact ih acc
    | some r => simp only [h]; rw [ih]; simp

/-- Pointwise form of the per-row acceptance test. -/
theorem row_from_cells_eq (cells : List String) :
    row_from_cells cells =
      (if strContains (cells.headD "") "---" ||
          strContains (cells.headD "") "Test_ID" then none
       else if 4 ≤ cells.length then
         some ⟨cells.headD "", cells.getD 1 "", cells.getD 2 "", cells.getD 3 "",
           cells.getD 4 ""⟩
       else none) := by
  cases cells with
  | nil => decide
  | cons c0 rest => rfl

/-- Shape of the script endpoint's final LLM dispatch: the recorded effects
happen and the outcome is never a 404. -/
theorem script_llm_step_shape (invoke : String → Except String String)
    (E : List Effect) (p : String) :
    (script_llm_step invoke E p).1 = E ∧
    ∀ d, (script_llm_step invoke E p).2 ≠ Except.error ⟨404, d⟩ := by
  unfold script_llm_step
  cases h : invoke p with
  | ok r => exact ⟨rfl, fun d hd => by cases hd⟩
  | error e =>
    refine ⟨rfl, fun d hd => ?_⟩
    simp only [Except.error.injEq, ErrorResponse.mk.injEq] at hd
    exact absurd hd.1 (by decide)

/-- The support-file loop ignores a file whose loader raises. -/
theorem load_support_docs_skips (pre post : List UploadFile) (bad : UploadFile)
    (e : String)
    (h : load_document (joinPath UPLOAD_DIR bad.filename) bad.filename bad.data
      = .error e) :
    load_support_docs (pre ++ bad :: post) = load_support_docs (pre ++ post) := by
  unfold load_support_docs
  rw [List.foldl_append, List.foldl_append, List.foldl_cons]
  congr 1
  simp only [h]

/- ### Claim theorems -/

/-- C2: parsing the literal three-line table text yields exactly the TC-001
and TC-002 data rows, in that order, with the separator row dropped. -/
theorem parse_test_plan_two_rows :
    parse_test_plan "| TC-001 | Login | Valid login | Redirect to dashboard | spec.md |\n|---|---|---|---|---|\n| TC-002 | Login | Invalid password | Error shown | spec.md |" =
      [⟨"TC-001", "Login", "Valid login", "Redirect to dashboard", "spec.md"⟩,
       ⟨"TC-002", "Login", "Invalid password", "Error shown", "spec.md"⟩] := by
  decide

/-- C1 counterexample: the parser does not test the header row by equality of
the first cell with `Test_ID` — it tests substring containment — so the data
row whose first cell is `Test_ID-7` is dropped by the code although the
claimed description keeps it. -/
theorem parse_test_plan_header_containment_cex :
    parse_test_plan "| Test_ID-7 | Login | X | Y |" = [] ∧
    parse_test_plan_claimed "| Test_ID-7 | Login | X | Y |" =
      [⟨"Test_ID-7", "Login", "X", "Y", ""⟩] ∧
    parse_test_plan "| Test_ID-7 | Login | X | Y |" ≠
      parse_test_plan_claimed "| Test_ID-7 | Login | X | Y |" :=
  ⟨by decide, by decide, by decide⟩

/-- C1 (amended): the parser keeps exactly the lines whose whitespace-stripped
form starts with a pipe; it strips outer pipes off the raw line, splits on
pipe and trims each cell; it discards a row when its first cell contains
`---` or contains `Test_ID` as a substring; it accepts a row only with at
least 4 cells and fills missing trailing cells with the empty string. -/
theorem parse_test_plan_characterization (raw : String) :
    parse_test_plan raw = parse_test_plan_amended raw := by
  unfold parse_test_plan parse_test_plan_amended
  rw [parse_fold_eq]
  simp only [List.nil_append]
  exact congrArg (fun f => List.filterMap f (table_lines raw))
    (funext fun line => row_from_cells_eq (line_cells line))

/-- C3: a support file whose loader raises is skipped — the ingest endpoint
produces the same state as the batch without that file, still answers
success, and creates the same chunks. -/
theorem build_knowledge_base_skips_bad_file (B : Backend) (st : ServerState)
    (pre post : List UploadFile) (bad : UploadFile) (e : String)
    (html_file : Html)
    (h : load_document (joinPath UPLOAD_DIR bad.filename) bad.filename bad.data
      = .error e) :
    (build_knowledge_base B st (pre ++ bad :: post) html_file).1 =
      (build_knowledge_base B st (pre ++ post) html_file).1 ∧
    (build_knowledge_base B st (pre ++ bad :: post) html_file).2.status
      = "success" ∧
    (build_knowledge_base B st (pre ++ bad :: post) html_file).2.chunks_created
      = (build_knowledge_base B st (pre ++ post) html_file).2.chunks_created := by
  have key := load_support_docs_skips pre post bad e h
  refine ⟨?_, rfl, ?_⟩ <;>
    · unfold build_knowledge_base
      rw [key]

/-- C3 witness at a concrete batch: a good file plus an unreadable file. -/
theorem build_knowledge_base_skips_bad_file_witness :
    (load_document (joinPath UPLOAD_DIR bad_file.filename) bad_file.filename
      bad_file.data = .error "boom") ∧
    ((build_knowledge_base backend_ok state_empty ([good_file] ++ bad_file :: []) html_sample).1 =
      (build_knowledge_base backend_ok state_empty ([good_file] ++ []) html_sample).1 ∧
    (build_knowledge_base backend_ok state_empty ([good_file] ++ bad_file :: []) html_sample).2.status
      = "success" ∧
    (build_knowledge_base backend_ok state_empty ([good_file] ++ bad_file :: []) html_sample).2.chunks_created
      = (build_knowledge_base backend_ok state_empty ([good_file] ++ []) html_sample).2.chunks_created) :=
  ⟨rfl, build_knowledge_base_skips_bad_file backend_ok state_empty [good_file]
    [] bad_file "boom" html_sample rfl⟩

/-- C4: with a configured LLM, the script endpoint answers HTTP 404 exactly
when no `checkout.html` artifact exists; when the artifact exists it performs
the retrieval and the LLM call and never answers 404; and every ingest call
leaves the artifact in place. -/
theorem generate_selenium_script_artifact_gate (B : Backend) (st : ServerState)
    (test_case : String) (f : String → Except String String)
    (hllm : B.llm = some f) :
    (st.checkout_html = none →
      generate_selenium_script B st test_case =
        ([], .error ⟨404,
          "checkout.html not found. Please run /build-knowledge-base first."⟩)) ∧
    (∀ html, st.checkout_html = some html →
      (∀ d, (generate_selenium_script B st test_case).2 ≠ .error ⟨404, d⟩) ∧
      ∃ p, (generate_selenium_script B st test_case).1 =
        [.search test_case 3, .llm_invoke p]) ∧
    (∀ st2 files html_file,
      ((build_knowledge_base B st2 files html_file).1).checkout_html
        = some html_file) := by
  refine ⟨fun hnone => ?_, fun html hsome => ?_, fun st2 files html_file => rfl⟩
  · simp only [generate_selenium_script, hllm, hnone]
  · constructor
    · intro d
      simp only [generate_selenium_script, hllm, hsome]
      exact (script_llm_step_shape _ _ _).2 d
    · refine ⟨script_prompt test_case
        (String.intercalate "\n"
          ((B.search st.vector_store test_case 3).map (fun d => d.page_content)))
        html.file_text, ?_⟩
      simp only [generate_selenium_script, hllm, hsome]
      exact (script_llm_step_shape _ _ _).1

/-- C4 witness: before any ingest, a configured backend answers 404. -/
theorem generate_selenium_script_artifact_gate_witness :
    backend_ok.llm = some llm_stub ∧
    state_empty.checkout_html = none ∧
    generate_selenium_script backend_ok state_empty "TC-001" =
      ([], .error ⟨404,
        "checkout.html not found. Please run /build-knowledge-base first."⟩) :=
  ⟨rfl, rfl,
    (generate_selenium_script_artifact_gate backend_ok state_empty "TC-001"
      llm_stub rfl).1 rfl⟩

/-- C5: with no LLM configured, both generation endpoints answer the HTTP 500
configuration error with an empty effect trace — no retrieval and no network
call happens. -/
theorem generation_fails_fast_without_llm (B : Backend) (st : ServerState)
    (prompt test_case : String) (h : B.llm = none) :
    generate_test_cases B st prompt =
      ([], .error ⟨500, "GOOGLE_API_KEY not configured."⟩) ∧
    generate_selenium_script B st test_case =
      ([], .error ⟨500, "GOOGLE_API_KEY not configured."⟩) := by
  constructor
  · simp only [generate_test_cases, h]
  · simp only [generate_selenium_script, h]

/-- C5 witness on the unconfigured backend. -/
theorem generation_fails_fast_without_llm_witness :
    backend_nollm.llm = none ∧
    (generate_test_cases backend_nollm state_with_html "plan it" =
      ([], .error ⟨500, "GOOGLE_API_KEY not configured."⟩) ∧
    generate_selenium_script backend_nollm state_with_html "TC-001" =
      ([], .error ⟨500, "GOOGLE_API_KEY not configured."⟩)) :=
  ⟨rfl, generation_fails_fast_without_llm backend_nollm state_with_html
    "plan it" "TC-001" rfl⟩

/-- C6: the HTML splitter yields exactly two segments — the visible text
tagged `type=text` first, the raw markup tagged `type=code` second, both with
`source="checkout.html"`. -/
theorem process_html_file_two_segments (html : Html) :
    process_html_file html =
      [⟨html.text_content, ⟨"checkout.html", some "text", none⟩⟩,
       ⟨html.raw_markup, ⟨"checkout.html", some "code", none⟩⟩] ∧
    (process_html_file html).length = 2 :=
  ⟨rfl, rfl⟩

/-- C7 counterexample: for the non-PDF file `spec.md`, the loader attaches
the upload-directory path as `source` metadata, not the bare file name. -/
theorem load_document_source_path_cex :
    load_document (joinPath UPLOAD_DIR "spec.md") "spec.md"
        (.text "Discount codes must be 5-15% off") =
      .ok [⟨"Discount codes must be 5-15% off",
        ⟨"./uploaded_docs/spec.md", none, none⟩⟩] ∧
    "./uploaded_docs/spec.md" ≠ "spec.md" :=
  ⟨rfl, by decide⟩

/-- C7 (amended): for every file whose lowercased name does not end in
`.pdf`, loading the UTF-8 text content yields exactly one segment whose
content equals the file content and whose `source` metadata is the
upload-directory path of the file. -/
theorem load_document_text_single_segment (filename content : String)
    (h : pyEndsWith ".pdf".toList (pyLower filename.toList) = false) :
    load_document (joinPath UPLOAD_DIR filename) filename (.text content) =
      .ok [⟨content, ⟨joinPath UPLOAD_DIR filename, none, none⟩⟩] := by
  unfold load_document
  simp only [h]
  rfl

/-- C7 witness on a concrete markdown file. -/
theorem load_document_text_single_segment_witness :
    pyEndsWith ".pdf".toList (pyLower "notes.txt".toList) = false ∧
    load_document (joinPath UPLOAD_DIR "notes.txt") "notes.txt" (.text "hello") =
      .ok [⟨"hello", ⟨joinPath UPLOAD_DIR "notes.txt", none, none⟩⟩] :=
  ⟨by decide, load_document_text_single_segment "notes.txt" "hello" (by decide)⟩

/-- C8 counterexample: when the script starts with a python fence, the
cleanup removes the fence markers everywhere, interior occurrences included,
whereas the claimed description preserves interior markers. -/
theorem clean_script_interior_fence_cex :
    clean_script "```python\nprint(\"``` done\")\n```" = "\nprint(\" done\")\n" ∧
    clean_script_claimed "```python\nprint(\"``` done\")\n```" =
      "\nprint(\"``` done\")\n" ∧
    clean_script "```python\nprint(\"``` done\")\n```" ≠
      clean_script_claimed "```python\nprint(\"``` done\")\n```" :=
  ⟨by decide, by decide, by decide⟩

/-- C8 (amended): the cleanup leaves a script unchanged unless it starts with
the python fence marker, and in that case removes every occurrence of
the python fence marker and then every occurrence of the plain fence marker
from the whole text, interior occurrences included. -/
theorem clean_script_characterization (script_code : String) :
    (pyStartsWith fence_python.toList script_code.toList = false →
      clean_script script_code = script_code) ∧
    (pyStartsWith fence_python.toList script_code.toList = true →
      clean_script script_code =
        String.mk (pyReplace fence.toList []
          (pyReplace fence_python.toList [] script_code.toList))) := by
  refine ⟨fun h => ?_, fun h => ?_⟩
  · unfold clean_script
    rw [h]
    rfl
  · unfold clean_script
    rw [h]
    rfl

/-- C8 witness: an unfenced script is unchanged and a fenced one is
stripped. -/
theorem clean_script_characterization_witness :
    (pyStartsWith fence_python.toList "x = 1".toList = false ∧
      clean_script "x = 1" = "x = 1") ∧
    (pyStartsWith fence_python.toList "```python\na\n```".toList = true ∧
      clean_script "```python\na\n```" = "\na\n") :=
  ⟨⟨by decide, (clean_script_characterization "x = 1").1 (by decide)⟩,
   ⟨by decide, by
      rw [(clean_script_characterization "```python\na\n```").2 (by decide)]
      decide⟩⟩

/-- C9: when the LLM is unconfigured and no HTML artifact exists, the script
endpoint answers the HTTP 500 configuration error, not the 404 error. -/
theorem generate_selenium_script_config_before_artifact (B : Backend)
    (st : ServerState) (test_case : String)
    (h1 : B.llm = none) (_h2 : st.checkout_html = none) :
    generate_selenium_script B st test_case =
      ([], .error ⟨500, "GOOGLE_API_KEY not configured."⟩) ∧
    ∀ d, generate_selenium_script B st test_case ≠ ([], .error ⟨404, d⟩) := by
  have he : generate_selenium_script B st test_case =
      ([], .error ⟨500, "GOOGLE_API_KEY not configured."⟩) := by
    simp only [generate_selenium_script, h1]
  refine ⟨he, fun d hd => ?_⟩
  rw [he] at hd
  simp only [Prod.mk.injEq, Except.error.injEq, ErrorResponse.mk.injEq,
    true_and] at hd
  exact absurd hd.1 (by decide)

/-- C9 witness: unconfigured backend, fresh state. -/
theorem generate_selenium_script_config_before_artifact_witness :
    backend_nollm.llm = none ∧
    state_empty.checkout_html = none ∧
    (generate_selenium_script backend_nollm state_empty "TC-001" =
      ([], .error ⟨500, "GOOGLE_API_KEY not configured."⟩) ∧
    ∀ d, generate_selenium_script backend_nollm state_empty "TC-001" ≠
      ([], .error ⟨404, d⟩)) :=
  ⟨rfl, rfl, generate_selenium_script_config_before_artifact backend_nollm
    state_empty "TC-001" rfl rfl⟩

/-- C10: when chunking yields no chunks, the ingest endpoint leaves the
vector store untouched and still answers success with `chunks_created`
equal to 0. -/
theorem build_knowledge_base_zero_chunks (B : Backend) (st : ServerState)
    (files : List UploadFile) (html_file : Html)
    (h : B.split_documents
      (load_support_docs files ++ process_html_file html_file) = []) :
    (build_knowledge_base B st files html_file).1.vector_store
      = st.vector_store ∧
    (build_knowledge_base B st files html_file).2.status = "success" ∧
    (build_knowledge_base B st files html_file).2.chunks_created = 0 := by
  refine ⟨?_, ?_, ?_⟩
  · simp only [build_knowledge_base]
    rw [h]
    rfl
  · simp only [build_knowledge_base]
  · simp only [build_knowledge_base]
    rw [h]
    rfl

/-- C10 witness: a splitter that returns no chunks. -/
theorem build_knowledge_base_zero_chunks_witness :
    backend_zero.split_documents
      (load_support_docs [good_file] ++ process_html_file html_sample) = [] ∧
    ((build_knowledge_base backend_zero state_empty [good_file] html_sample).1.vector_store
      = state_empty.vector_store ∧
    (build_knowledge_base backend_zero state_empty [good_file] html_sample).2.status
      = "success" ∧
    (build_knowledge_base backend_zero state_empty [good_file] html_sample).2.chunks_created
      = 0) :=
  ⟨rfl, build_knowledge_base_zero_chunks backend_zero state_empty [good_file]
    html_sample rfl⟩
